import Mathlib

/-!
Verification development for the Dialog Bridging Engine of the
Azaliss/TuberryRazrab repository (backend/app).

Shallow embedding conventions:
* instants (Python `datetime` values) are minutes since an epoch, as `Int`;
  Python's floor semantics for `date()` / midnight agree with `Int` `/` and `%`
  (Euclidean) because the divisor 1440 is positive;
* `time` values (time of day) are minutes, as `Nat`;
* `datetime.utcnow()` values are naive UTC; `astimezone(tz)` on them (the
  source runs with a UTC system clock) is modelled as adding the zone's
  offset in minutes;
* database rows are Lean structures, stores are lists, repository methods are
  pure functions on them; SQL `ORDER BY id DESC LIMIT 1` is modelled on
  insertion-ordered lists with increasing ids;
* HTTP calls to the two chat surfaces are modelled by explicit outcome values
  (scripts) passed in as environment parameters; an exception propagating is
  an `Except.error` / dedicated outcome constructor.
-/

namespace Tuberry

/-! ## String helpers (Python `in`, `lower`, `strip`, `splitlines`) -/

/-- Python's substring test `pat in hay` on strings. -/
def strContainsSub (hay pat : String) : Bool :=
  hay.data.tails.any (fun t => pat.data.isPrefixOf t)

/-- Python's `str.lower` (ASCII case folding suffices for the literals the
source compares). -/
def lowerStr (s : String) : String :=
  ⟨s.data.map Char.toLower⟩

/-- Whitespace for Python's `str.strip` (the ASCII whitespace the source's
data can contain). -/
def isSpaceChar (c : Char) : Bool :=
  c = ' ' || c = '\t' || c = '\n' || c = '\r'

/-- Drop leading whitespace of a character list. -/
def dropLeadingSpace : List Char → List Char
  | [] => []
  | c :: cs => if isSpaceChar c then dropLeadingSpace cs else c :: cs

/-- Python's `str.strip`. -/
def pyTrim (s : String) : String :=
  ⟨dropLeadingSpace ((dropLeadingSpace s.data.reverse).reverse)⟩

/-- Python's `str.replace` for single characters. -/
def replaceChar (cs : List Char) (a b : Char) : List Char :=
  cs.map (fun c => if c = a then b else c)

/-- Split a character list on a separator character (Python `str.split` /
`str.splitlines` over the newline separator the source just introduced). -/
def splitOnCharAux (sep : Char) : List Char → List Char → List (List Char)
  | [], acc => [acc.reverse]
  | c :: cs, acc =>
    if c = sep then acc.reverse :: splitOnCharAux sep cs []
    else splitOnCharAux sep cs (c :: acc)

/-! ## Data model (`app/models`) -/

/-- The `MessageDirection` enum values used by the engine
(`MessageDirection.avito.value` and `MessageDirection.telegram.value`). -/
def directionAvito : String := "avito"

def directionTelegram : String := "telegram"

/-- Row of the `messages` table (the fields the engine reads or writes).
`created_at` is the server-side creation timestamp of `TimestampedModel`. -/
structure Message where
  id : Nat
  dialog_id : Nat
  direction : String
  source_message_id : Option String
  telegram_message_id : Option String
  body : String
  status : String
  is_auto_reply : Bool
  is_client_message : Bool
  created_at : Int
  deriving Repr, DecidableEq

/-- Row of the `dialogs` table (the fields the engine reads or writes). -/
structure Dialog where
  id : Nat
  client_id : Nat
  avito_account_id : Nat
  bot_id : Nat
  source : String
  avito_dialog_id : String
  telegram_chat_id : Option String
  telegram_topic_id : Option String
  topic_intro_sent : Bool
  auto_reply_last_sent_at : Option Int
  auto_reply_scheduled_at : Option Int
  last_message_at : Option Int
  deriving Repr, DecidableEq

/-- The auto-reply / filtering columns of the `clients` table consumed by the
engine, plus the zone offset (minutes) that `_resolve_timezone` and
`astimezone` amount to for the configured `auto_reply_timezone`. -/
structure Client where
  hide_system_messages : Bool
  filter_keywords : Option String
  auto_reply_enabled : Bool
  auto_reply_always : Bool
  auto_reply_start_time : Option Nat
  auto_reply_end_time : Option Nat
  auto_reply_text : Option String
  tzOffsetMinutes : Int
  deriving Repr, DecidableEq

/-- Bot columns the dialog-resolution path reads. -/
structure Bot where
  id : Nat
  topic_mode : Bool
  group_chat_id : Option String
  deriving Repr, DecidableEq

/-- Python truthiness of an `Optional[str]`: `None` and the empty string are
falsy. -/
def truthyStr : Option String → Bool
  | none => false
  | some s => s ≠ ""

/-! ## Message repository (`app/repositories/message_repository.py`) -/

/-- Model of `MessageRepository.get_by_source`: the matching row with the greatest id
(`ORDER BY Message.id DESC LIMIT 1`).  Stores are insertion-ordered with
increasing ids, so this is the last matching element. -/
def get_by_source (msgs : List Message) (direction : String)
    (source_message_id : String) : Option Message :=
  (msgs.filter (fun m =>
    m.direction == direction && m.source_message_id == some source_message_id)).getLast?

/-- Model of `MessageRepository.has_outgoing_since`: a non-auto-reply Telegram-direction
message of the dialog with `created_at >= since` exists. -/
def has_outgoing_since (msgs : List Message) (dialog_id : Nat) (since : Int) : Bool :=
  msgs.any (fun m =>
    m.dialog_id == dialog_id && m.direction == directionTelegram &&
      !m.is_auto_reply && since ≤ m.created_at)

/-! ## Dialog repository (`app/repositories/dialog_repository.py`) -/

/-- Model of `DialogRepository.set_topic`: store the new topic id; when it is truthy
(`if topic_id:`) also reset `topic_intro_sent` to `False`. -/
def set_topic (d : Dialog) (topic_id : Option String) : Dialog :=
  let d' := { d with telegram_topic_id := topic_id }
  if truthyStr topic_id then { d' with topic_intro_sent := false } else d'

/-- Model of `DialogRepository.mark_auto_reply_sent`. -/
def mark_auto_reply_sent (d : Dialog) (timestamp : Int) : Dialog :=
  { d with auto_reply_last_sent_at := some timestamp, auto_reply_scheduled_at := none }

/-- Model of `DialogRepository.set_auto_reply_schedule`. -/
def set_auto_reply_schedule (d : Dialog) (scheduled_at : Option Int) : Dialog :=
  { d with auto_reply_scheduled_at := scheduled_at }

/-- Model of `DialogRepository.clear_auto_reply_schedule` (early-returns when already
clear; the stored state is the same either way). -/
def clear_auto_reply_schedule (d : Dialog) : Dialog :=
  { d with auto_reply_scheduled_at := none }

/-- Model of `DialogRepository.touch`. -/
def touch (d : Dialog) (now : Int) : Dialog :=
  { d with last_message_at := some now }

/-- Model of `DialogRepository.create` (the engine-relevant columns; `topic_intro_sent`
is created as `False`). -/
def create_dialog (id client_id avito_account_id bot_id : Nat)
    (avito_dialog_id : String) (telegram_chat_id telegram_topic_id : Option String)
    (now : Int) : Dialog :=
  { id := id, client_id := client_id, avito_account_id := avito_account_id,
    bot_id := bot_id, source := directionAvito, avito_dialog_id := avito_dialog_id,
    telegram_chat_id := telegram_chat_id, telegram_topic_id := telegram_topic_id,
    topic_intro_sent := false, auto_reply_last_sent_at := none,
    auto_reply_scheduled_at := none, last_message_at := some now }

/-! ## Content filter (`DialogService._should_ignore_message`) -/

/-- Model of `DialogService._extract_filter_tokens`: commas become newlines, each line is
stripped, lowercased, empty tokens dropped (`splitlines` modelled by splitting
on the newline we just introduced). -/
def extract_filter_tokens (filter_keywords : Option String) : List String :=
  match filter_keywords with
  | none => []
  | some s =>
    if s = "" then []
    else ((splitOnCharAux '\n' (replaceChar s.data ',' '\n') []).map
      (fun cs => lowerStr (pyTrim ⟨cs⟩))).filter (fun t => t ≠ "")

/-- Model of `DialogService._should_ignore_message` (the system-message marker check,
then the keyword filter). -/
def should_ignore_message (client : Option Client) (message_text : String) : Bool :=
  if message_text = "" then false
  else
    let sysHit :=
      match client with
      | some c => c.hide_system_messages && strContainsSub message_text "[Системное сообщение]"
      | none => false
    if sysHit then true
    else
      let filters := extract_filter_tokens (client.bind (fun c => c.filter_keywords))
      if filters.isEmpty then false
      else
        let lowered := lowerStr message_text
        filters.any (fun token => strContainsSub lowered token)

/-! ## Auto-reply time window (`DialogService._is_time_within_window`,
`DialogService._calculate_window_start`) -/

/-- Model of `DialogService._is_time_within_window` over minute-of-day values. -/
def is_time_within_window (current start «end» : Nat) : Bool :=
  if start == «end» then false
  else if start < «end» then decide (start ≤ current) && decide (current < «end»)
  else decide (current ≥ start) || decide (current < «end»)

/-- Model of `DialogService._calculate_window_start` over the minute model.  `local_now`
always carries a zone in the source (it is produced by `astimezone` /
`datetime.now(tzinfo)`), so the `tzinfo is None` early return is never taken
and is not modelled.  `local midnight` is `(local_now / 1440) * 1440`. -/
def calculate_window_start (local_now : Int) (auto_reply_always : Bool)
    (start_time end_time : Option Nat) : Option Int :=
  if auto_reply_always then some ((local_now / 1440) * 1440)
  else
    match start_time, end_time with
    | some s, some e =>
      if s ≤ e then
        let start_today := (local_now / 1440) * 1440 + (s : Int)
        if start_today ≤ local_now then some start_today
        else some (start_today - 1440)
      else
        -- overnight window (start > end)
        let start_today := (local_now / 1440) * 1440 + (s : Int)
        if (s : Int) ≤ local_now % 1440 then some start_today
        else some (start_today - 1440)
    | _, _ => none

/-! ## Auto-reply evaluation (`DialogService._maybe_send_auto_reply`) -/

/-- Model of `DialogService._maybe_send_auto_reply`, up to and including the decision to
arm a schedule.  Returns `some scheduled_at` when a schedule is armed (the
source then persists it via `set_auto_reply_schedule` and spawns the delayed
task), `none` when the call is a no-op.  The source computes
`window_start_local` and performs the `auto_reply_last_sent_at` comparison
twice in a row with identical inputs; the repetition is modelled once.
The second `datetime.utcnow()` used for `scheduled_at` is modelled as the
same instant `now_utc`. -/
def maybe_send_auto_reply (client : Option Client) (dialog : Dialog)
    (now_utc : Int) : Option Int :=
  match client with
  | none => none
  | some c =>
    if !c.auto_reply_enabled then none
    else if pyTrim (c.auto_reply_text.getD "") = "" then none
    else
      let local_now := now_utc + c.tzOffsetMinutes
      let windowOk :=
        if c.auto_reply_always then true
        else
          match c.auto_reply_start_time, c.auto_reply_end_time with
          | some s, some e => is_time_within_window (local_now % 1440).toNat s e
          | _, _ => false
      if !windowOk then none
      else
        let window_start_local := calculate_window_start local_now
          c.auto_reply_always c.auto_reply_start_time c.auto_reply_end_time
        let blocked :=
          match dialog.auto_reply_last_sent_at, window_start_local with
          | some last, some w => decide (w ≤ last + c.tzOffsetMinutes)
          | _, _ => false
        if blocked then none
        else some now_utc

/-! ## Echo-suppression cache (`app/services/queue.py`) -/

/-- The payload stored for a remembered outbound message, plus the TTL the
`SET ... EX` call used (seconds). -/
structure EchoMeta where
  account_id : Nat
  dialog_id : String
  ttl : Int
  deriving Repr, DecidableEq

/-- The Redis keyspace of the echo-suppression cache, as an association list
keyed by the full Redis key. -/
structure EchoCache where
  entries : List (String × EchoMeta)
  deriving Repr, DecidableEq

/-- Model of `TaskQueue.outbound_ttl_seconds` (12 hours). -/
def outbound_ttl_seconds : Int := 3600 * 12

/-- The Redis key `TaskQueue.remember_outbound_message` writes
(`f"TaskQueue.outbound_prefix:message_id"`). -/
def outboundKey (message_id : String) : String :=
  "tuberry:avito:sent:" ++ message_id

/-- Redis `GET`. -/
def cacheGet (c : EchoCache) (key : String) : Option EchoMeta :=
  (c.entries.find? (fun p => p.1 == key)).map (fun p => p.2)

/-- Redis `DEL`. -/
def cacheDelete (c : EchoCache) (key : String) : EchoCache :=
  ⟨c.entries.filter (fun p => p.1 != key)⟩

/-- Model of `TaskQueue.remember_outbound_message`: no-op on a falsy id, otherwise
`SET key payload EX (ttl or outbound_ttl_seconds)`. -/
def remember_outbound_message (c : EchoCache) (message_id : String)
    (account_id : Nat) (dialog_id : String) (ttl : Option Int) : EchoCache :=
  if message_id = "" then c
  else
    let key := outboundKey message_id
    ⟨(key, ⟨account_id, dialog_id, ttl.getD outbound_ttl_seconds⟩) ::
      (cacheDelete c key).entries⟩

/-- Model of `TaskQueue.pop_outbound_message`: pipelined `GET` + `DEL`; returns the
cached payload (if any) and the cache with the key removed. -/
def pop_outbound_message (c : EchoCache) (message_id : String) :
    Option EchoMeta × EchoCache :=
  if message_id = "" then (none, c)
  else (cacheGet c (outboundKey message_id), cacheDelete c (outboundKey message_id))

/-! ## Worker post-send step (`app/worker.py`, `main`, lines 475-482) -/

/-- After a successful `avito.send_message` task the worker remembers the
delivered remote message id (when the send result carried one) in the
echo-suppression cache. -/
def worker_remember_sent (c : EchoCache) (result_message_id : Option String)
    (account_id : Nat) (dialog_id : String) : EchoCache :=
  match result_message_id with
  | some mid =>
    if mid ≠ "" then remember_outbound_message c mid account_id dialog_id none else c
  | none => c

/-! ## Poller inbound filtering (`app/workers/avito_poller.py`, `process_chat`) -/

/-- One message as observed by the poller, after the source's raw extraction
(`extract_message_text`, `extract_message_attachments`, author/direction
fields). -/
structure PolledMsg where
  id : Option String
  text : String
  attachmentCount : Nat
  direction : Option String
  author_is_self : Bool
  author_id : Option String
  deriving Repr, DecidableEq

/-- What `process_chat` decides for one polled message before (possibly)
handing it to `DialogService.handle_avito_message`. -/
inductive PollDecision
  | droppedEcho
  | droppedEmpty
  | droppedDirection
  | droppedSelf
  | ingest
  deriving Repr, DecidableEq

/-- Direction strings the poller treats as self-authored. -/
def selfDirections : List String :=
  ["outgoing", "outbound", "out", "seller", "seller_to_buyer", "self", "sent"]

/-- The per-message body of `process_chat`'s loop: echo-cache check, empty
check, direction heuristic, self-author check, then ingestion. -/
def poller_handle_message (c : EchoCache) (self_user_ids : List String)
    (m : PolledMsg) : PollDecision × EchoCache :=
  let checkRest := fun (c' : EchoCache) =>
    if m.text = "" && m.attachmentCount = 0 then (PollDecision.droppedEmpty, c')
    else
      let dirHit :=
        match m.direction with
        | some dir => selfDirections.contains (lowerStr dir)
        | none => false
      if dirHit then (PollDecision.droppedDirection, c')
      else if m.author_is_self ||
          (match m.author_id with
           | some aid => self_user_ids.contains aid
           | none => false) then (PollDecision.droppedSelf, c')
      else (PollDecision.ingest, c')
  match m.id with
  | some mid =>
    if mid ≠ "" then
      let (cached, c') := pop_outbound_message c mid
      if cached.isSome then (PollDecision.droppedEcho, c')
      else checkRest c'
    else checkRest c
  | none => checkRest c

/-! ## Rate-limit retry (`DialogService._execute_with_retry`) and the remote
surface send (`AvitoService.send_message`) -/

/-- An exception raised by a Telegram send callable, as the retry and
topic-recovery layers see it: its Python class (`httpx.HTTPStatusError`,
`ValueError`, or anything else), the response status code, the `Retry-After`
header (seconds; float parsing abstracted to integers), and the message text
that `_is_topic_missing_error` inspects. -/
structure TgError where
  isHttpStatusError : Bool
  isValueError : Bool
  status : Option Nat
  retryAfterHdr : Option Int
  description : String
  deriving Repr, DecidableEq

/-- Outcome of one invocation of the underlying send callable: a successful
response (with the message id `_extract_telegram_message_id` finds in it, if
any), or a raised exception. -/
inductive CallResp
  | ok (msgId : Option Nat)
  | err (e : TgError)
  deriving Repr, DecidableEq

/-- The retry loop of `_execute_with_retry`.  `script n` is the outcome of the
`n`-th invocation of the send callable.  Returns the final outcome, the number
of invocations performed, and the list of sleeps taken (seconds).  Only
`httpx.HTTPStatusError` is caught by the loop; the wait is
`max(delay_seconds, Retry-After or delay_seconds)`. -/
def retryGo (script : Nat → CallResp) (delay : Int) (retries : Nat)
    (attempt : Nat) (waits : List Int) :
    Except TgError (Option Nat) × Nat × List Int :=
  match script attempt with
  | .ok r => (.ok r, attempt + 1, waits)
  | .err e =>
    if h : e.isHttpStatusError = true ∧ e.status = some 429 ∧ attempt < retries then
      retryGo script delay retries (attempt + 1)
        (waits ++ [max delay ((e.retryAfterHdr).getD delay)])
    else (.error e, attempt + 1, waits)
termination_by retries - attempt
decreasing_by omega

/-- Model of `DialogService._execute_with_retry` with its default arguments
(`retries=1`, `delay_seconds=1.0`). -/
def execute_with_retry (script : Nat → CallResp) :
    Except TgError (Option Nat) × Nat × List Int :=
  retryGo script 1 1 0 []

/-- Outcome of `AvitoService.send_message`. -/
inductive AvitoSendOutcome
  | invalidArgs
  | httpError (status : Nat)
  | sent (messageId : Option String)
  deriving Repr, DecidableEq

/-- One HTTP response of the Avito messenger API: its status code and the
message id `AvitoService.extract_message_id` finds in the JSON payload. -/
structure AvitoResp where
  status : Nat
  messageId : Option String
  deriving Repr, DecidableEq

/-- Model of `AvitoService.send_message`: argument validation, then a single POST whose
failure (`raise_for_status`, any status of 400 and above) propagates — there
is no retry on this surface.  The second component counts HTTP calls made. -/
def avito_send_message (account_id : Option Nat) (dialog_id text : String)
    (resp : AvitoResp) : AvitoSendOutcome × Nat :=
  if account_id = none then (AvitoSendOutcome.invalidArgs, 0)
  else if dialog_id = "" then (AvitoSendOutcome.invalidArgs, 0)
  else if text = "" then (AvitoSendOutcome.invalidArgs, 0)
  else if 400 ≤ resp.status then (AvitoSendOutcome.httpError resp.status, 1)
  else (AvitoSendOutcome.sent resp.messageId, 1)

/-! ## Topic-missing classification (`DialogService._is_topic_missing_error`) -/

/-- The phrases `_is_topic_missing_error` searches for in the lowercased
error message. -/
def topicMissingPhrases : List String :=
  ["message thread not found", "message_thread_not_found",
   "invalid message thread id", "message can\x27t be sent to thread",
   "thread not found"]

/-- Model of `DialogService._is_topic_missing_error`, applied to the message text the
source extracts from the exception (response JSON `description`, response
text, or `ValueError` args). -/
def is_topic_missing_error (message : String) : Bool :=
  topicMissingPhrases.any (fun phrase => strContainsSub (lowerStr message) phrase)

/-! ## Topic self-healing (`DialogService._send_with_topic_recovery`) -/

/-- Outcome of a `tg.create_topic` call: the HTTP call raised, succeeded
without a recognizable `message_thread_id`, or succeeded with topic id `t`. -/
inductive CreateTopicOutcome
  | raisedWith (e : TgError)
  | okNoId
  | okId (topicId : Nat)
  deriving Repr, DecidableEq

/-- A dialog-repository write performed during recovery, for observing the
clear-then-rebind order. -/
inductive RepoOp
  | opSetTopic (t : Option String)
  deriving Repr, DecidableEq

/-- The environment of one `_send_with_topic_recovery` call: the scripted
responses of the original send (fed through `_execute_with_retry`), the
outcome of `tg.create_topic` if reached, the outcome of the header re-post,
and the scripted responses of the retried send. -/
structure RecoveryEnv where
  firstSend : Nat → CallResp
  createTopic : CreateTopicOutcome
  headerSendOk : Bool
  retrySend : Nat → CallResp

/-- Observable result of `_send_with_topic_recovery`: the returned value or
propagated exception, the dialog as last persisted, the trace of
`set_topic` writes, whether the header re-post was attempted, how many
`create_topic` calls were made, and how many times the original send callable
was handed to `_execute_with_retry`. -/
structure RecoveryOut where
  outcome : Except TgError (Option Nat)
  dialog : Dialog
  trace : List RepoOp
  headerAttempted : Bool
  createTopicCalls : Nat
  sendInvocations : Nat
  deriving Repr

/-- The `ValueError("Failed to create Telegram topic")` raised when topic
creation returns no id. -/
def failed_create_error : TgError :=
  { isHttpStatusError := false, isValueError := true, status := none,
    retryAfterHdr := none, description := "Failed to create Telegram topic" }

/-- Model of `DialogService._send_with_topic_recovery`.  A stored topic id that does
not parse as an integer is reset before sending.  A first-send failure is
inspected only when it is an `httpx.HTTPStatusError` or `ValueError`; a
topic-missing failure clears the stored id, recreates the topic (when the bot
is in topic mode with a chat — otherwise the original error re-raises),
re-posts the header, and retries the original send exactly once. -/
def send_with_topic_recovery (d0 : Dialog) (bot : Bot)
    (telegram_chat_id : Option String) (env : RecoveryEnv) : RecoveryOut :=
  let parseFailed :=
    match d0.telegram_topic_id with
    | some s => s.toNat?.isNone
    | none => false
  let d := if parseFailed then set_topic d0 none else d0
  let tr : List RepoOp := if parseFailed then [RepoOp.opSetTopic none] else []
  let r1 := execute_with_retry env.firstSend
  match r1.1 with
  | .ok res =>
    { outcome := .ok res, dialog := d, trace := tr, headerAttempted := false,
      createTopicCalls := 0, sendInvocations := 1 }
  | .error e =>
    if !((e.isHttpStatusError || e.isValueError) && is_topic_missing_error e.description) then
      { outcome := .error e, dialog := d, trace := tr, headerAttempted := false,
        createTopicCalls := 0, sendInvocations := 1 }
    else
      let d1 := set_topic d none
      let tr1 := tr ++ [RepoOp.opSetTopic none]
      if !(bot.topic_mode && truthyStr telegram_chat_id) then
        { outcome := .error e, dialog := d1, trace := tr1, headerAttempted := false,
          createTopicCalls := 0, sendInvocations := 1 }
      else
        match env.createTopic with
        | .raisedWith ce =>
          { outcome := .error ce, dialog := d1, trace := tr1, headerAttempted := false,
            createTopicCalls := 1, sendInvocations := 1 }
        | .okNoId =>
          { outcome := .error failed_create_error, dialog := d1, trace := tr1,
            headerAttempted := false, createTopicCalls := 1, sendInvocations := 1 }
        | .okId t =>
          let d2 := set_topic d1 (some (toString t))
          let tr2 := tr1 ++ [RepoOp.opSetTopic (some (toString t))]
          let d3 := if env.headerSendOk then { d2 with topic_intro_sent := true } else d2
          let r2 := execute_with_retry env.retrySend
          match r2.1 with
          | .ok res =>
            { outcome := .ok res, dialog := d3, trace := tr2, headerAttempted := true,
              createTopicCalls := 1, sendInvocations := 2 }
          | .error e2 =>
            { outcome := .error e2, dialog := d3, trace := tr2, headerAttempted := true,
              createTopicCalls := 1, sendInvocations := 2 }

/-! ## Engine state (the Dialog and Message stores) -/

/-- The durable state the engine reads and writes: the two stores, with the
next auto-increment ids. -/
structure EngineState where
  dialogs : List Dialog
  messages : List Message
  nextDialogId : Nat
  nextMessageId : Nat
  deriving Repr, DecidableEq

/-- Model of `DialogRepository.get` (primary-key lookup). -/
def findDialogById (st : EngineState) (dialog_id : Nat) : Option Dialog :=
  st.dialogs.find? (fun d => d.id == dialog_id)

/-- Model of `DialogRepository.get_by_avito` (client id + avito dialog id + avito
source). -/
def get_by_avito (st : EngineState) (client_id : Nat) (avito_dialog_id : String) :
    Option Dialog :=
  st.dialogs.find? (fun d =>
    d.client_id == client_id && d.avito_dialog_id == avito_dialog_id &&
      d.source == directionAvito)

/-- Commit an updated dialog row (replace by primary key). -/
def putDialog (st : EngineState) (d : Dialog) : EngineState :=
  { st with dialogs := st.dialogs.map (fun x => if x.id == d.id then d else x) }

/-- Model of `MessageRepository.create`: insert a new row with the next id;
`created_at` is the commit time. -/
def message_create (st : EngineState) (dialog_id : Nat) (direction : String)
    (source_message_id : Option String) (body : String) (status : String)
    (telegram_message_id : Option String) (is_auto_reply is_client_message : Bool)
    (now : Int) : EngineState × Message :=
  let m : Message :=
    { id := st.nextMessageId, dialog_id := dialog_id, direction := direction,
      source_message_id := source_message_id,
      telegram_message_id := telegram_message_id, body := body, status := status,
      is_auto_reply := is_auto_reply, is_client_message := is_client_message,
      created_at := now }
  ({ st with messages := st.messages ++ [m], nextMessageId := st.nextMessageId + 1 }, m)

/-! ## Dialog resolution (`DialogService._ensure_dialog_context`) -/

/-- External outcomes `_ensure_dialog_context` depends on: the result of a
`tg.create_topic` call if one is made, and whether `_send_topic_header`
succeeds (it returns `False` exactly when the header `sendMessage` raised,
pin failures being swallowed). -/
structure CtxEnv where
  createTopic : CreateTopicOutcome
  headerSendOk : Bool
  deriving Repr

/-- The engine-relevant portion of the returned `DialogContext`, plus
observables for the header attempt. -/
structure DialogCtx where
  dialog : Dialog
  created : Bool
  topicCreated : Bool
  headerAttempted : Bool
  target_chat_id : String
  deriving Repr, DecidableEq

/-- Shared tail of `_ensure_dialog_context`: the header block
(`(topic_created or not topic_intro_sent) and topic_mode and chat and topic`),
the `topic_intro_sent` commit on success (failure is only logged), and the
final `touch`. -/
def ensure_finish (st : EngineState) (d : Dialog) (created topic_created : Bool)
    (bot : Bot) (telegram_chat_id : Option String) (target : String)
    (headerOk : Bool) (now : Int) : EngineState × DialogCtx :=
  let headerAttempt :=
    (topic_created || !d.topic_intro_sent) && bot.topic_mode &&
      truthyStr telegram_chat_id && truthyStr d.telegram_topic_id
  let d1 := if headerAttempt && headerOk then { d with topic_intro_sent := true } else d
  let d2 := touch d1 now
  (putDialog st d2,
   { dialog := d2, created := created, topicCreated := topic_created,
     headerAttempted := headerAttempt, target_chat_id := target })

/-- Model of `DialogService._ensure_dialog_context`.  Account/bot validation failures
and a missing target chat raise (`Except.error`); so does a `create_topic`
failure on the dialog-creation path (on the re-bind path it is caught and
logged).  A topic id of `0` from the API is falsy in the source and treated
as absent. -/
def ensure_dialog_context (st : EngineState) (bot : Bot)
    (client_id avito_account_id : Nat) (avito_dialog_id : String) (env : CtxEnv)
    (now : Int) : Except Unit (EngineState × DialogCtx) :=
  let dialog? := get_by_avito st client_id avito_dialog_id
  let telegram_chat_id :=
    match dialog? with
    | some d => d.telegram_chat_id
    | none => bot.group_chat_id
  let target? := if truthyStr telegram_chat_id then telegram_chat_id else bot.group_chat_id
  match target? with
  | none => Except.error ()
  | some target =>
    if target = "" then Except.error ()
    else
      match dialog? with
      | none =>
        let topicResult : Except Unit (Option Nat) :=
          if bot.topic_mode && truthyStr telegram_chat_id then
            match env.createTopic with
            | .raisedWith _ => Except.error ()
            | .okNoId => Except.ok none
            | .okId t => Except.ok (if t = 0 then none else some t)
          else Except.ok none
        match topicResult with
        | .error _ => Except.error ()
        | .ok topicId =>
          let d := create_dialog st.nextDialogId client_id avito_account_id bot.id
            avito_dialog_id telegram_chat_id (topicId.map toString) now
          let st1 :=
            { st with dialogs := st.dialogs ++ [d], nextDialogId := st.nextDialogId + 1 }
          Except.ok (ensure_finish st1 d true (truthyStr d.telegram_topic_id) bot
            telegram_chat_id target env.headerSendOk now)
      | some d =>
        if bot.topic_mode && truthyStr telegram_chat_id &&
            !(truthyStr d.telegram_topic_id) then
          match env.createTopic with
          | .raisedWith _ =>
            Except.ok (ensure_finish st d false false bot telegram_chat_id target
              env.headerSendOk now)
          | .okNoId =>
            Except.ok (ensure_finish st d false false bot telegram_chat_id target
              env.headerSendOk now)
          | .okId t =>
            if t = 0 then
              Except.ok (ensure_finish st d false false bot telegram_chat_id target
                env.headerSendOk now)
            else
              let d' := set_topic d (some (toString t))
              Except.ok (ensure_finish (putDialog st d') d' false true bot
                telegram_chat_id target env.headerSendOk now)
        else
          Except.ok (ensure_finish st d false false bot telegram_chat_id target
            env.headerSendOk now)

/-! ## Message ingestion (`DialogService.handle_avito_message`) -/

/-- Outcome of one recovery-wrapped delivery to the team-chat surface, as the
ingestion loop sees it: the send returned (carrying the message id
`_extract_telegram_message_id` finds, if any) or an exception propagated. -/
inductive DeliveryOutcome
  | delivered (msgId : Option String)
  | raisedErr
  deriving Repr, DecidableEq

/-- One inbound attachment after the source's per-kind resolution steps:
`kind` is `str(attachment.get("type") or message_type or "").lower()`;
`image_url` is the result of the pure payload walk
`_resolve_avito_image_url`; `voice_id` is
`attachment.get("voice_id") or attachment.get("id")`; `voice_url` is the
`get_voice_file_urls` lookup for that id. -/
structure Attachment where
  kind : String
  image_url : Option String
  voice_id : Option String
  voice_url : Option String
  deriving Repr, DecidableEq

/-- One entry of the stored attachment ledger (`attachments_records`). -/
structure AttachRecord where
  typ : String
  delivered : Bool
  reason : Option String
  telegram_message_id : Option String
  fallbackDocument : Bool
  deriving Repr, DecidableEq

/-- Model of `DialogService._describe_attachments_for_body`. -/
def describe_attachments_for_body (records : List AttachRecord) : Option String :=
  if records.isEmpty then none
  else
    let labels := records.map (fun r =>
      let label := lowerStr (pyTrim (if r.typ = "" then "attachment" else r.typ))
      if label = "image" then "[изображение]"
      else if label = "voice" then "[голосовое сообщение]"
      else "[" ++ label ++ "]")
    if labels.isEmpty then none else some (String.intercalate " " labels)

/-- Append `telegram_message_ids.append(message_id)` — only a truthy extracted
id is collected. -/
def idsAppend (ids : List String) (mid : Option String) : List String :=
  match mid with
  | some m => if m ≠ "" then ids ++ [m] else ids
  | none => ids

/-- Accumulator of the attachment loop: collected telegram ids, the ledger,
the index of the next scripted send, the remaining caption text, and whether
an exception aborted the call. -/
structure LoopState where
  ids : List String
  records : List AttachRecord
  sendIdx : Nat
  caption : Option String
  aborted : Bool
  deriving Repr, DecidableEq

/-- One iteration of the attachment loop of `handle_avito_message`.  Image:
deliver when a url was resolved, else record `no_url`.  Voice: record
`missing_voice_id` / `no_url` when unresolvable; otherwise the media is
downloaded (a download failure would propagate; downloads are modelled as
succeeding) and sent, falling back to a document send when the voice send
raises; a fallback failure propagates.  Any other kind is recorded as
`unsupported`. -/
def processAttachment (sends : Nat → DeliveryOutcome) (ls : LoopState)
    (a : Attachment) : LoopState :=
  if ls.aborted then ls
  else if a.kind = "image" then
    match a.image_url with
    | none =>
      { ls with records := ls.records ++
          [{ typ := "image", delivered := false, reason := some "no_url",
             telegram_message_id := none, fallbackDocument := false }] }
    | some _ =>
      match sends ls.sendIdx with
      | .raisedErr => { ls with sendIdx := ls.sendIdx + 1, aborted := true }
      | .delivered mid =>
        { ls with
            sendIdx := ls.sendIdx + 1,
            records := ls.records ++
              [{ typ := "image", delivered := true, reason := none,
                 telegram_message_id := if truthyStr mid then mid else none,
                 fallbackDocument := false }],
            ids := idsAppend ls.ids mid,
            caption := none }
  else if a.kind = "voice" then
    match a.voice_id with
    | none =>
      { ls with records := ls.records ++
          [{ typ := "voice", delivered := false, reason := some "missing_voice_id",
             telegram_message_id := none, fallbackDocument := false }] }
    | some _ =>
      match a.voice_url with
      | none =>
        { ls with records := ls.records ++
            [{ typ := "voice", delivered := false, reason := some "no_url",
               telegram_message_id := none, fallbackDocument := false }] }
      | some _ =>
        match sends ls.sendIdx with
        | .delivered mid =>
          { ls with
              sendIdx := ls.sendIdx + 1,
              records := ls.records ++
                [{ typ := "voice", delivered := true, reason := none,
                   telegram_message_id := if truthyStr mid then mid else none,
                   fallbackDocument := false }],
              ids := idsAppend ls.ids mid,
              caption := none }
        | .raisedErr =>
          match sends (ls.sendIdx + 1) with
          | .delivered mid =>
            { ls with
                sendIdx := ls.sendIdx + 2,
                records := ls.records ++
                  [{ typ := "voice", delivered := true, reason := none,
                     telegram_message_id := if truthyStr mid then mid else none,
                     fallbackDocument := true }],
                ids := idsAppend ls.ids mid,
                caption := none }
          | .raisedErr => { ls with sendIdx := ls.sendIdx + 2, aborted := true }
  else
    { ls with records := ls.records ++
        [{ typ := if a.kind = "" then "unknown" else a.kind, delivered := false,
           reason := some "unsupported", telegram_message_id := none,
           fallbackDocument := false }] }

/-- The inbound event handed to `handle_avito_message`. -/
structure InboundEvent where
  client_id : Nat
  avito_account_id : Nat
  avito_dialog_id : String
  message_text : Option String
  source_message_id : Option String
  attachments : List Attachment
  deriving Repr, DecidableEq

/-- Environment of one ingestion call: the dialog-resolution outcomes and the
scripted outcomes of the recovery-wrapped team-chat deliveries, in order. -/
structure HandleEnv where
  ctx : CtxEnv
  sends : Nat → DeliveryOutcome

/-- The structured result of `handle_avito_message` (`ignored` dictionaries,
a propagated exception, or the success dictionary). -/
inductive HandleResult
  | ignoredFiltered
  | ignoredEmpty
  | ignoredDuplicate
  | raisedErr
  | ok (dialogId : Nat) (created : Bool)
  deriving Repr, DecidableEq

/-- Observables of one ingestion call: how many team-chat deliveries were
attempted, the collected `telegram_message_ids`, the persisted Message row
(if any), and whether an auto-reply schedule was armed. -/
structure HandleTrace where
  sendCalls : Nat
  deliveredIds : List String
  createdMessage : Option Message
  autoReplyArmed : Bool
  deriving Repr, DecidableEq

/-- Trace of a call that stopped before any delivery or persistence. -/
def emptyTrace : HandleTrace :=
  { sendCalls := 0, deliveredIds := [], createdMessage := none,
    autoReplyArmed := false }

/-- Python's `text_value or None` on a string. -/
def strOrNone (s : String) : Option String :=
  if s = "" then none else some s

/-- Tail of `handle_avito_message` after the deliveries: compute the stored
body, the dedup key (`source_message_id or telegram_message_ids[0]`), persist
the Message row, then evaluate the auto-reply scheduler. -/
def finish_ingest (st : EngineState) (client : Option Client) (ctx : DialogCtx)
    (ev : InboundEvent) (text_value : String) (ids : List String)
    (records : List AttachRecord) (sendCalls : Nat) (now : Int) :
    EngineState × HandleResult × HandleTrace :=
  let display_body :=
    if text_value ≠ "" then text_value
    else (describe_attachments_for_body records).getD ""
  let source_key :=
    if truthyStr ev.source_message_id then ev.source_message_id else ids.head?
  let (st2, m) := message_create st ctx.dialog.id directionAvito source_key
    display_body "delivered" ids.head? false true now
  let (st3, armed) :=
    match maybe_send_auto_reply client ctx.dialog now with
    | some sched => (putDialog st2 (set_auto_reply_schedule ctx.dialog (some sched)), true)
    | none => (st2, false)
  (st3, HandleResult.ok ctx.dialog.id ctx.created,
   { sendCalls := sendCalls, deliveredIds := ids, createdMessage := some m,
     autoReplyArmed := armed })

/-- Model of `DialogService.handle_avito_message`: content filter, empty check,
duplicate check (in that order), dialog resolution, attachment and text
deliveries, Message persistence, auto-reply evaluation.  The best-effort
`_update_topic_status` rename (errors swallowed) has no engine-state effect
and is not modelled. -/
def handle_avito_message (st : EngineState) (client : Option Client) (bot : Bot)
    (ev : InboundEvent) (env : HandleEnv) (now : Int) :
    EngineState × HandleResult × HandleTrace :=
  let text_value := ev.message_text.getD ""
  if text_value ≠ "" && should_ignore_message client text_value then
    (st, HandleResult.ignoredFiltered, emptyTrace)
  else if text_value = "" && ev.attachments.isEmpty then
    (st, HandleResult.ignoredEmpty, emptyTrace)
  else if truthyStr ev.source_message_id &&
      (get_by_source st.messages directionAvito
        ((ev.source_message_id).getD "")).isSome then
    (st, HandleResult.ignoredDuplicate, emptyTrace)
  else
    match ensure_dialog_context st bot ev.client_id ev.avito_account_id
        ev.avito_dialog_id env.ctx now with
    | .error _ => (st, HandleResult.raisedErr, emptyTrace)
    | .ok (st1, ctx) =>
      let ls0 : LoopState :=
        { ids := [], records := [], sendIdx := 0,
          caption := strOrNone text_value, aborted := false }
      let ls1 := ev.attachments.foldl (processAttachment env.sends) ls0
      if ls1.aborted then
        (st1, HandleResult.raisedErr,
         { sendCalls := ls1.sendIdx, deliveredIds := ls1.ids,
           createdMessage := none, autoReplyArmed := false })
      else if truthyStr ls1.caption then
        match env.sends ls1.sendIdx with
        | .raisedErr =>
          (st1, HandleResult.raisedErr,
           { sendCalls := ls1.sendIdx + 1, deliveredIds := ls1.ids,
             createdMessage := none, autoReplyArmed := false })
        | .delivered mid =>
          finish_ingest st1 client ctx ev text_value (idsAppend ls1.ids mid)
            ls1.records (ls1.sendIdx + 1) now
      else
        finish_ingest st1 client ctx ev text_value ls1.ids ls1.records
          ls1.sendIdx now

/-! ## Scheduled auto-reply firing
(`DialogService._execute_scheduled_auto_reply`) -/

/-- Environment of one fire: the dialog-resolution outcomes and the outcome of
the recovery-wrapped auto-reply send. -/
structure FireEnv where
  ctx : CtxEnv
  send : DeliveryOutcome
  deriving Repr

/-- Model of `DialogService._execute_scheduled_auto_reply`.  Returns the new state,
whether an auto-reply was sent, and the dialog row written by
`mark_auto_reply_sent` on success.  An exception from dialog resolution or
the send is caught by the spawning runner: the schedule is left untouched and
nothing is persisted beyond what already committed.  The `avito.send_message`
job enqueued on success lives on the external task queue and is modelled by
the worker step `worker_remember_sent`. -/
def execute_scheduled_auto_reply (st : EngineState) (client : Option Client)
    (bot : Bot) (dialog_id : Nat) (scheduled_at : Int) (now_utc : Int)
    (env : FireEnv) : EngineState × Bool × Option Dialog :=
  match findDialogById st dialog_id with
  | none => (st, false, none)
  | some d =>
    match d.auto_reply_scheduled_at with
    | none => (st, false, none)
    | some stored =>
      if stored ≠ scheduled_at then (st, false, none)
      else
        let clearSt := putDialog st (clear_auto_reply_schedule d)
        match client with
        | none => (clearSt, false, none)
        | some c =>
          if !c.auto_reply_enabled then (clearSt, false, none)
          else if pyTrim (c.auto_reply_text.getD "") = "" then (clearSt, false, none)
          else if has_outgoing_since st.messages d.id scheduled_at then
            (clearSt, false, none)
          else
            let local_now := now_utc + c.tzOffsetMinutes
            let windowOk :=
              if c.auto_reply_always then true
              else
                match c.auto_reply_start_time, c.auto_reply_end_time with
                | some s, some e => is_time_within_window (local_now % 1440).toNat s e
                | _, _ => false
            if !windowOk then (clearSt, false, none)
            else
              let ws := calculate_window_start local_now c.auto_reply_always
                c.auto_reply_start_time c.auto_reply_end_time
              let blocked :=
                match ws, d.auto_reply_last_sent_at with
                | some w, some last => decide (w ≤ last + c.tzOffsetMinutes)
                | _, _ => false
              if blocked then (clearSt, false, none)
              else
                match ensure_dialog_context st bot d.client_id d.avito_account_id
                    d.avito_dialog_id env.ctx now_utc with
                | .error _ => (st, false, none)
                | .ok (st1, ctx) =>
                  match env.send with
                  | .raisedErr => (st1, false, none)
                  | .delivered mid =>
                    let telegram_text :=
                      "🤖 Автоответчик: " ++ pyTrim (c.auto_reply_text.getD "")
                    let (st2, _m) := message_create st1 ctx.dialog.id
                      directionTelegram mid telegram_text "sent" mid true false
                      now_utc
                    let d3 := mark_auto_reply_sent (touch ctx.dialog now_utc) now_utc
                    (putDialog st2 d3, true, some d3)

/-! ## Shared sample data and helper lemmas -/

/-- A sample dialog row used by witnesses. -/
def sampleDialog : Dialog :=
  { id := 1, client_id := 1, avito_account_id := 1, bot_id := 1,
    source := directionAvito, avito_dialog_id := "d1",
    telegram_chat_id := some "-100", telegram_topic_id := some "7",
    topic_intro_sent := true, auto_reply_last_sent_at := none,
    auto_reply_scheduled_at := none, last_message_at := none }

/-- A sample client row with the auto-reply policy disabled. -/
def sampleClientOff : Client :=
  { hide_system_messages := true, filter_keywords := none,
    auto_reply_enabled := false, auto_reply_always := false,
    auto_reply_start_time := none, auto_reply_end_time := none,
    auto_reply_text := none, tzOffsetMinutes := 0 }

/-- A sample always-on auto-reply client. -/
def sampleClientOn : Client :=
  { hide_system_messages := true, filter_keywords := none,
    auto_reply_enabled := true, auto_reply_always := true,
    auto_reply_start_time := none, auto_reply_end_time := none,
    auto_reply_text := some "hi", tzOffsetMinutes := 0 }

/-- Helper: evaluation never arms a schedule while the last auto-reply send,
seen in local time, is at or after the current window start.  Shared between
the window-computation and the at-most-one-per-window arguments. -/
theorem maybe_send_no_rearm (c : Client) (d : Dialog) (now_utc l w : Int)
    (hl : d.auto_reply_last_sent_at = some l)
    (hw : calculate_window_start (now_utc + c.tzOffsetMinutes) c.auto_reply_always
      c.auto_reply_start_time c.auto_reply_end_time = some w)
    (hle : w ≤ l + c.tzOffsetMinutes) :
    maybe_send_auto_reply (some c) d now_utc = none := by
  simp only [maybe_send_auto_reply, hl, hw]
  split
  · rfl
  split
  · rfl
  simp [hle]

/-- Helper: a window with equal bounds never matches. -/
theorem window_eq_never (cur s : Nat) : is_time_within_window cur s s = false := by
  simp [is_time_within_window]

/-- Helper: a non-wrapping window matches the half-open interval. -/
theorem window_forward (cur s e : Nat) (h : s < e) :
    is_time_within_window cur s e = true ↔ s ≤ cur ∧ cur < e := by
  simp [is_time_within_window, Nat.ne_of_lt h, h]

/-- Helper: a wrapping window matches past the start or before the end. -/
theorem window_wrap (cur s e : Nat) (h : e < s) :
    is_time_within_window cur s e = true ↔ s ≤ cur ∨ cur < e := by
  have hne : (s == e) = false := by simp [Nat.ne_of_gt h]
  have hlt : (s < e) = False := by simp [Nat.not_lt.mpr (Nat.le_of_lt h)]
  simp [is_time_within_window, hne, hlt]

/-! ## Claim C9 -/

/-- C9: `DialogRepository.set_topic` with a truthy (non-null, non-empty) new
topic id stores that id and simultaneously resets `topic_intro_sent` to
false, and `DialogRepository.create` starts every dialog with
`topic_intro_sent = false`, so every freshly created or re-bound sub-channel
starts in the header-not-yet-posted state. -/
theorem C9_set_topic_resets_intro (d : Dialog) (s : String) (hs : s ≠ "") :
    (set_topic d (some s)).topic_intro_sent = false ∧
    (set_topic d (some s)).telegram_topic_id = some s ∧
    ∀ i c a b adid chat topic now,
      (create_dialog i c a b adid chat topic now).topic_intro_sent = false := by
  refine ⟨?_, ?_, ?_⟩ <;> simp [set_topic, truthyStr, hs, create_dialog]

/-- Witness for C9 at a concrete dialog and topic id. -/
theorem C9_set_topic_witness :
    ("42" : String) ≠ "" ∧ (set_topic sampleDialog (some "42")).topic_intro_sent = false :=
  ⟨by decide, (C9_set_topic_resets_intro sampleDialog "42" (by decide)).1⟩

/-! ## Claim C6 -/

/-- C6: `_maybe_send_auto_reply` arms no schedule when the policy is disabled,
when the auto-reply text is empty after trimming, or — when not always-on —
when the local time of day falls outside the window; and
`_is_time_within_window` realizes the half-open interval, wrapping past
midnight when `start > end`, with equal bounds matching never. -/
theorem C6_evaluate_noop_conditions :
    (∀ d now, maybe_send_auto_reply none d now = none) ∧
    (∀ c d now, c.auto_reply_enabled = false →
      maybe_send_auto_reply (some c) d now = none) ∧
    (∀ c d now, pyTrim (c.auto_reply_text.getD "") = "" →
      maybe_send_auto_reply (some c) d now = none) ∧
    (∀ c d now s e, c.auto_reply_always = false →
      c.auto_reply_start_time = some s → c.auto_reply_end_time = some e →
      is_time_within_window (((now + c.tzOffsetMinutes) % 1440)).toNat s e = false →
      maybe_send_auto_reply (some c) d now = none) ∧
    (∀ cur s, is_time_within_window cur s s = false) ∧
    (∀ cur s e, s < e → (is_time_within_window cur s e = true ↔ s ≤ cur ∧ cur < e)) ∧
    (∀ cur s e, e < s → (is_time_within_window cur s e = true ↔ s ≤ cur ∨ cur < e)) := by
  refine ⟨?_, ?_, ?_, ?_, window_eq_never, window_forward, window_wrap⟩
  · intro d now
    simp [maybe_send_auto_reply]
  · intro c d now h
    simp [maybe_send_auto_reply, h]
  · intro c d now h
    simp only [maybe_send_auto_reply, h]
    split <;> simp
  · intro c d now s e halways hs he hwin
    simp only [maybe_send_auto_reply, halways, hs, he, hwin]
    split
    · rfl
    split
    · rfl
    simp

/-- Witness for C6: a disabled policy arms nothing at a concrete input. -/
theorem C6_noop_witness :
    sampleClientOff.auto_reply_enabled = false ∧
    maybe_send_auto_reply (some sampleClientOff) sampleDialog 0 = none :=
  ⟨by decide, C6_evaluate_noop_conditions.2.1 sampleClientOff sampleDialog 0 (by decide)⟩

/-! ## Claim C5 -/

/-- C5: `_calculate_window_start` returns local midnight for always-on
policies; for a bounded window it returns today's `window_start` when
`local_now` is at or past it and the previous day's otherwise — i.e. the most
recent occurrence of `window_start` at or before `local_now`; and evaluation
arms no schedule when the last auto-reply send, in local time, is at or after
that window start. -/
theorem C5_window_start_correct :
    (∀ local_now s e, calculate_window_start local_now true s e =
      some ((local_now / 1440) * 1440)) ∧
    (∀ (local_now : Int) (s e : Nat),
      calculate_window_start local_now false (some s) (some e) =
        some (if (local_now / 1440) * 1440 + (s : Int) ≤ local_now
              then (local_now / 1440) * 1440 + (s : Int)
              else (local_now / 1440) * 1440 + (s : Int) - 1440)) ∧
    (∀ (local_now : Int) (s e : Nat) (w : Int), (s : Int) < 1440 →
      calculate_window_start local_now false (some s) (some e) = some w →
      w ≤ local_now ∧ local_now - w < 1440 ∧ w % 1440 = (s : Int)) ∧
    (∀ (c : Client) (d : Dialog) (now_utc l w : Int),
      d.auto_reply_last_sent_at = some l →
      calculate_window_start (now_utc + c.tzOffsetMinutes) c.auto_reply_always
        c.auto_reply_start_time c.auto_reply_end_time = some w →
      w ≤ l + c.tzOffsetMinutes →
      maybe_send_auto_reply (some c) d now_utc = none) := by
  refine ⟨?_, ?_, ?_, maybe_send_no_rearm⟩
  · intro local_now s e
    simp [calculate_window_start]
  · intro local_now s e
    have hmod : local_now % 1440 = local_now - 1440 * (local_now / 1440) :=
      Int.emod_def local_now 1440
    have h0 : 0 ≤ local_now % 1440 := Int.emod_nonneg local_now (by norm_num)
    have h1 : local_now % 1440 < 1440 := Int.emod_lt_of_pos local_now (by norm_num)
    simp only [calculate_window_start, if_neg (Bool.false_ne_true)]
    split_ifs <;> first | rfl | (exfalso; omega)
  · intro local_now s e w hs hcalc
    have hmod : local_now % 1440 = local_now - 1440 * (local_now / 1440) :=
      Int.emod_def local_now 1440
    have h0 : 0 ≤ local_now % 1440 := Int.emod_nonneg local_now (by norm_num)
    have h1 : local_now % 1440 < 1440 := Int.emod_lt_of_pos local_now (by norm_num)
    simp only [calculate_window_start, if_neg (Bool.false_ne_true)] at hcalc
    split_ifs at hcalc <;> simp only [Option.some.injEq] at hcalc <;>
      exact ⟨by omega, by omega, by omega⟩

/-- Witness for C5: a concrete bounded window (start 60, end 120, local time
3000 on day 2) yields window start 2940, which is at or before now, less than
a day old, and lands on the configured minute of day. -/
theorem C5_window_witness :
    ((60 : Nat) : Int) < 1440 ∧
    calculate_window_start 3000 false (some 60) (some 120) = some 2940 ∧
    ((2940 : Int) ≤ 3000 ∧ (3000 : Int) - 2940 < 1440 ∧ (2940 : Int) % 1440 = 60) :=
  ⟨by decide, by decide,
    C5_window_start_correct.2.2.1 3000 60 120 2940 (by decide) (by decide)⟩

/-! ## Claim C4 -/

/-- C4 counterexample: `AvitoService.send_message` makes a single HTTP call
and propagates a 429 response via `raise_for_status` without any retry, so on
the remote marketplace surface a 429-class response does not cause a retry,
contrary to the claim that every single outbound call to either chat surface
retries exactly once on 429. -/
theorem C4_avito_no_retry_counterexample :
    avito_send_message (some 1) "chat-1" "hello" { status := 429, messageId := none } =
      (AvitoSendOutcome.httpError 429, 1) ∧
    (avito_send_message (some 1) "chat-1" "hello"
      { status := 429, messageId := none }).2 ≠ 2 := by
  constructor <;> decide

/-- C4 amended: `_execute_with_retry` (wrapping every team-chat send) retries
exactly once on an `httpx.HTTPStatusError` with status 429, sleeping
`max(default 1s, Retry-After)`, and propagates a second failure or any
non-429 error after a single attempt; no send callable is ever invoked more
than twice and a failure is always surfaced.  The remote marketplace surface
(`AvitoService.send_message`) performs exactly one HTTP call and propagates
any 4xx/5xx — including 429 — without retrying. -/
theorem retryFirstOk (script : Nat → CallResp) (r : Option Nat)
    (h : script 0 = CallResp.ok r) :
    execute_with_retry script = (Except.ok r, 1, []) := by
  rw [execute_with_retry, retryGo, h]

theorem retryAfter429Ok (script : Nat → CallResp) (e : TgError) (r : Option Nat)
    (h0 : script 0 = CallResp.err e) (hhttp : e.isHttpStatusError = true)
    (h429 : e.status = some 429) (h1 : script 1 = CallResp.ok r) :
    execute_with_retry script =
      (Except.ok r, 2, [max 1 (e.retryAfterHdr.getD 1)]) := by
  rw [execute_with_retry, retryGo, h0]
  dsimp only
  rw [dif_pos ⟨hhttp, h429, Nat.zero_lt_one⟩, retryGo, h1]
  rfl

theorem retryAfter429Err (script : Nat → CallResp) (e e2 : TgError)
    (h0 : script 0 = CallResp.err e) (hhttp : e.isHttpStatusError = true)
    (h429 : e.status = some 429) (h1 : script 1 = CallResp.err e2) :
    execute_with_retry script =
      (Except.error e2, 2, [max 1 (e.retryAfterHdr.getD 1)]) := by
  rw [execute_with_retry, retryGo, h0]
  dsimp only
  rw [dif_pos ⟨hhttp, h429, Nat.zero_lt_one⟩, retryGo, h1]
  dsimp only
  rw [dif_neg (by omega)]
  rfl

theorem retryNo429 (script : Nat → CallResp) (e : TgError)
    (h0 : script 0 = CallResp.err e)
    (hne : e.isHttpStatusError = false ∨ e.status ≠ some 429) :
    execute_with_retry script = (Except.error e, 1, []) := by
  rw [execute_with_retry, retryGo, h0]
  dsimp only
  rw [dif_neg (by rcases hne with h | h <;> simp [h])]

theorem C4_retry_once_telegram_only :
    (∀ (script : Nat → CallResp) r, script 0 = CallResp.ok r →
      execute_with_retry script = (Except.ok r, 1, [])) ∧
    (∀ (script : Nat → CallResp) e r, script 0 = CallResp.err e →
      e.isHttpStatusError = true → e.status = some 429 →
      script 1 = CallResp.ok r →
      execute_with_retry script =
        (Except.ok r, 2, [max 1 (e.retryAfterHdr.getD 1)])) ∧
    (∀ (script : Nat → CallResp) e e2, script 0 = CallResp.err e →
      e.isHttpStatusError = true → e.status = some 429 →
      script 1 = CallResp.err e2 →
      execute_with_retry script =
        (Except.error e2, 2, [max 1 (e.retryAfterHdr.getD 1)])) ∧
    (∀ (script : Nat → CallResp) e, script 0 = CallResp.err e →
      e.isHttpStatusError = false ∨ e.status ≠ some 429 →
      execute_with_retry script = (Except.error e, 1, [])) ∧
    (∀ script : Nat → CallResp, (execute_with_retry script).2.1 ≤ 2) ∧
    (∀ (a : Option Nat) (d t : String) (resp : AvitoResp), 400 ≤ resp.status →
      a ≠ none → d ≠ "" → t ≠ "" →
      avito_send_message a d t resp = (AvitoSendOutcome.httpError resp.status, 1)) := by
  refine ⟨retryFirstOk, retryAfter429Ok, retryAfter429Err, retryNo429, ?_, ?_⟩
  · intro script
    rw [execute_with_retry, retryGo]
    cases h0 : script 0 with
    | ok r => simp
    | err e =>
      dsimp only
      by_cases hc : e.isHttpStatusError = true ∧ e.status = some 429 ∧ 0 < 1
      · rw [dif_pos hc, retryGo]
        cases h1 : script 1 with
        | ok r => simp
        | err e2 =>
          dsimp only
          rw [dif_neg (by omega)]
      · rw [dif_neg hc]
        simp
  · intro a d t resp hst ha hd ht
    simp [avito_send_message, ha, hd, ht, hst]

/-- A sample 429 rate-limit error carrying a Retry-After hint of 5 seconds. -/
def sample429 : TgError :=
  { isHttpStatusError := true, isValueError := false, status := some 429,
    retryAfterHdr := some 5, description := "Too Many Requests" }

/-- A sample send script: first call rate-limited, second call succeeds. -/
def sampleRetryScript : Nat → CallResp :=
  fun n => if n = 0 then CallResp.err sample429 else CallResp.ok (some 7)

/-- Witness for C4: a concrete 429 followed by a success is retried exactly
once, waiting the Retry-After hint of 5 seconds. -/
theorem C4_retry_witness :
    sampleRetryScript 0 = CallResp.err sample429 ∧
    execute_with_retry sampleRetryScript = (Except.ok (some 7), 2, [5]) :=
  ⟨rfl, by
    have h := C4_retry_once_telegram_only.2.1 sampleRetryScript sample429 (some 7)
      rfl rfl rfl rfl
    simpa [sample429] using h⟩

/-! ## Claim C7 -/

/-- Helper: deleting a key removes it from the cache. -/
theorem cacheGet_cacheDelete (c : EchoCache) (k : String) :
    cacheGet (cacheDelete c k) k = none := by
  have h : List.find? (fun p => p.1 == k) (List.filter (fun p => p.1 != k) c.entries) =
      none := by
    rw [List.find?_eq_none]
    intro p hp
    have := List.of_mem_filter hp
    simpa using this
  simp [cacheGet, cacheDelete, h]

/-- C7: a successful outbound delivery whose result carries a remote message
id writes that id into the echo-suppression cache with the account and dialog
keys and the finite 12-hour TTL; and any polled inbound message whose id is
found in the cache is dropped as an echo (never handed to ingestion), the
entry being consumed. -/
theorem C7_echo_cache_roundtrip :
    (∀ (c : EchoCache) (mid : String) (acc : Nat) (did : String), mid ≠ "" →
      cacheGet (worker_remember_sent c (some mid) acc did) (outboundKey mid) =
        some { account_id := acc, dialog_id := did, ttl := outbound_ttl_seconds } ∧
      outbound_ttl_seconds = 43200 ∧ (0 : Int) < outbound_ttl_seconds) ∧
    (∀ (c : EchoCache) (selfIds : List String) (m : PolledMsg) (mid : String),
      m.id = some mid → mid ≠ "" →
      (cacheGet c (outboundKey mid)).isSome = true →
      (poller_handle_message c selfIds m).1 = PollDecision.droppedEcho ∧
      (poller_handle_message c selfIds m).1 ≠ PollDecision.ingest ∧
      cacheGet (poller_handle_message c selfIds m).2 (outboundKey mid) = none) := by
  constructor
  · intro c mid acc did hmid
    refine ⟨?_, rfl, by norm_num [outbound_ttl_seconds]⟩
    simp [worker_remember_sent, hmid, remember_outbound_message, cacheGet]
  · intro c selfIds m mid hid hmid hcached
    have hpop : pop_outbound_message c mid =
        (cacheGet c (outboundKey mid), cacheDelete c (outboundKey mid)) := by
      simp [pop_outbound_message, hmid]
    refine ⟨?_, ?_, ?_⟩ <;>
      simp [poller_handle_message, hid, hmid, hpop, hcached, cacheGet_cacheDelete]

/-- Witness for C7 at a concrete cache, worker result and polled message. -/
theorem C7_echo_witness :
    ("m77" : String) ≠ "" ∧
    cacheGet (worker_remember_sent ⟨[]⟩ (some "m77") 4 "chat-9") (outboundKey "m77") =
      some { account_id := 4, dialog_id := "chat-9", ttl := outbound_ttl_seconds } :=
  ⟨by decide, (C7_echo_cache_roundtrip.1 ⟨[]⟩ "m77" 4 "chat-9" (by decide)).1⟩

/-! ## Claim C3 -/

/-- Helper: `set_topic` always stores exactly the given topic id. -/
theorem set_topic_topic_id (d : Dialog) (t : Option String) :
    (set_topic d t).telegram_topic_id = t := by
  unfold set_topic
  split <;> rfl

/-- C3: a recovery-wrapped send failing with a topic-missing class of error
(an `httpx.HTTPStatusError`/`ValueError` whose message matches
`_is_topic_missing_error`) clears the stored sub-channel id, creates a new
sub-channel, re-posts the header, and retries the original send exactly once
against the new id, after which the Dialog holds exactly the one new non-null
sub-channel id, different from the old one; if sub-channel creation fails
(no topic id in the response, the creation call raises, or the bot is not in
topic mode / has no chat) the error propagates to the caller. -/
theorem C3_topic_recovery_selfheal :
    (∀ (d : Dialog) (bot : Bot) (chat : Option String) (env : RecoveryEnv)
        (e : TgError) (t : Nat),
      (match d.telegram_topic_id with
       | some s => s.toNat?.isNone
       | none => false) = false →
      (execute_with_retry env.firstSend).1 = Except.error e →
      (e.isHttpStatusError || e.isValueError) = true →
      is_topic_missing_error e.description = true →
      bot.topic_mode = true → truthyStr chat = true →
      env.createTopic = CreateTopicOutcome.okId t →
      some (toString t) ≠ d.telegram_topic_id →
      (send_with_topic_recovery d bot chat env).dialog.telegram_topic_id =
          some (toString t) ∧
      (send_with_topic_recovery d bot chat env).dialog.telegram_topic_id ≠
          d.telegram_topic_id ∧
      (send_with_topic_recovery d bot chat env).trace =
          [RepoOp.opSetTopic none, RepoOp.opSetTopic (some (toString t))] ∧
      (send_with_topic_recovery d bot chat env).headerAttempted = true ∧
      (send_with_topic_recovery d bot chat env).createTopicCalls = 1 ∧
      (send_with_topic_recovery d bot chat env).sendInvocations = 2 ∧
      (send_with_topic_recovery d bot chat env).outcome =
          (execute_with_retry env.retrySend).1) ∧
    (∀ (d : Dialog) (bot : Bot) (chat : Option String) (env : RecoveryEnv)
        (e : TgError),
      (match d.telegram_topic_id with
       | some s => s.toNat?.isNone
       | none => false) = false →
      (execute_with_retry env.firstSend).1 = Except.error e →
      (e.isHttpStatusError || e.isValueError) = true →
      is_topic_missing_error e.description = true →
      bot.topic_mode = true → truthyStr chat = true →
      env.createTopic = CreateTopicOutcome.okNoId →
      (send_with_topic_recovery d bot chat env).outcome =
          Except.error failed_create_error ∧
      (send_with_topic_recovery d bot chat env).dialog.telegram_topic_id = none ∧
      (send_with_topic_recovery d bot chat env).sendInvocations = 1) ∧
    (∀ (d : Dialog) (bot : Bot) (chat : Option String) (env : RecoveryEnv)
        (e ce : TgError),
      (match d.telegram_topic_id with
       | some s => s.toNat?.isNone
       | none => false) = false →
      (execute_with_retry env.firstSend).1 = Except.error e →
      (e.isHttpStatusError || e.isValueError) = true →
      is_topic_missing_error e.description = true →
      bot.topic_mode = true → truthyStr chat = true →
      env.createTopic = CreateTopicOutcome.raisedWith ce →
      (send_with_topic_recovery d bot chat env).outcome = Except.error ce ∧
      (send_with_topic_recovery d bot chat env).dialog.telegram_topic_id = none ∧
      (send_with_topic_recovery d bot chat env).sendInvocations = 1) ∧
    (∀ (d : Dialog) (bot : Bot) (chat : Option String) (env : RecoveryEnv)
        (e : TgError),
      (match d.telegram_topic_id with
       | some s => s.toNat?.isNone
       | none => false) = false →
      (execute_with_retry env.firstSend).1 = Except.error e →
      (e.isHttpStatusError || e.isValueError) = true →
      is_topic_missing_error e.description = true →
      (bot.topic_mode && truthyStr chat) = false →
      (send_with_topic_recovery d bot chat env).outcome = Except.error e ∧
      (send_with_topic_recovery d bot chat env).dialog.telegram_topic_id = none ∧
      (send_with_topic_recovery d bot chat env).sendInvocations = 1) := by
  refine ⟨?_, ?_, ?_, ?_⟩
  · intro d bot chat env e t hparse hfail hcaught hmissing htm hchat hct hneq
    have key : (send_with_topic_recovery d bot chat env).dialog.telegram_topic_id =
        some (toString t) := by
      cases hr2 : (execute_with_retry env.retrySend).1 <;>
        cases hh : env.headerSendOk <;>
        simp [send_with_topic_recovery, hparse, hfail, hcaught, hmissing, htm,
          hchat, hct, hr2, hh, set_topic_topic_id]
    refine ⟨key, key ▸ hneq, ?_, ?_, ?_, ?_, ?_⟩ <;>
      cases hr2 : (execute_with_retry env.retrySend).1 <;>
        simp [send_with_topic_recovery, hparse, hfail, hcaught, hmissing, htm,
          hchat, hct, hr2]
  · intro d bot chat env e hparse hfail hcaught hmissing htm hchat hct
    refine ⟨?_, ?_, ?_⟩ <;>
      simp [send_with_topic_recovery, hparse, hfail, hcaught, hmissing, htm,
        hchat, hct, set_topic_topic_id]
  · intro d bot chat env e ce hparse hfail hcaught hmissing htm hchat hct
    refine ⟨?_, ?_, ?_⟩ <;>
      simp [send_with_topic_recovery, hparse, hfail, hcaught, hmissing, htm,
        hchat, hct, set_topic_topic_id]
  · intro d bot chat env e hparse hfail hcaught hmissing hnomode
    refine ⟨?_, ?_, ?_⟩ <;>
      simp [send_with_topic_recovery, hparse, hfail, hcaught, hmissing, hnomode,
        set_topic_topic_id]

/-- A sample bot in topic mode. -/
def sampleBot : Bot :=
  { id := 1, topic_mode := true, group_chat_id := some "-100" }

/-- A sample topic-missing failure as Telegram reports it. -/
def sampleTopicMissingErr : TgError :=
  { isHttpStatusError := true, isValueError := false, status := some 400,
    retryAfterHdr := none, description := "Bad Request: message thread not found" }

/-- A sample recovery environment: the first send always fails with the
topic-missing error, topic 9 is created, the header posts, the retried send
succeeds. -/
def sampleRecoveryEnv : RecoveryEnv :=
  { firstSend := fun _ => CallResp.err sampleTopicMissingErr,
    createTopic := CreateTopicOutcome.okId 9,
    headerSendOk := true,
    retrySend := fun _ => CallResp.ok (some 55) }

/-- A sample dialog whose sub-channel binding has been lost. -/
def sampleDialogNoTopic : Dialog :=
  { sampleDialog with telegram_topic_id := none }

/-- Witness for C3: the concrete self-heal rebinds the dialog to the new
topic and performs the original send twice in total. -/
theorem C3_recovery_witness :
    is_topic_missing_error sampleTopicMissingErr.description = true ∧
    (send_with_topic_recovery sampleDialogNoTopic sampleBot (some "-100")
        sampleRecoveryEnv).dialog.telegram_topic_id = some (toString 9) ∧
    (send_with_topic_recovery sampleDialogNoTopic sampleBot (some "-100")
        sampleRecoveryEnv).sendInvocations = 2 := by
  have h := C3_topic_recovery_selfheal.1 sampleDialogNoTopic sampleBot (some "-100")
    sampleRecoveryEnv sampleTopicMissingErr 9 (by decide)
    (by rw [retryNo429 sampleRecoveryEnv.firstSend sampleTopicMissingErr rfl
      (Or.inr (by decide))])
    (by decide) (by decide) rfl (by decide) rfl (by decide)
  exact ⟨by decide, h.1, h.2.2.2.2.2.1⟩

/-! ## Claim C8 -/

/-- Helper: the intro flag after `ensure_finish` can be true only when the
header send succeeded or the flag was already true. -/
theorem ensure_finish_intro_true (st : EngineState) (d : Dialog)
    (created tc : Bool) (bot : Bot) (chat : Option String) (target : String)
    (hok : Bool) (now : Int)
    (h : (ensure_finish st d created tc bot chat target hok now).2.dialog.topic_intro_sent
      = true) :
    hok = true ∨ d.topic_intro_sent = true := by
  simp only [ensure_finish, touch] at h
  split at h
  · next hc => exact Or.inl ((Bool.and_eq_true _ _).mp hc).2
  · exact Or.inr h

/-- Helper: when the header is attempted and succeeds, `ensure_finish` commits
the intro flag. -/
theorem ensure_finish_attempted_ok (st : EngineState) (d : Dialog)
    (created tc : Bool) (bot : Bot) (chat : Option String) (target : String)
    (hok : Bool) (now : Int)
    (ha : (ensure_finish st d created tc bot chat target hok now).2.headerAttempted
      = true)
    (hoktrue : hok = true) :
    (ensure_finish st d created tc bot chat target hok now).2.dialog.topic_intro_sent
      = true := by
  simp only [ensure_finish, touch] at ha ⊢
  simp [ha, hoktrue]

/-- Helper: every successful `_ensure_dialog_context` run ends in some
`ensure_finish` call whose dialog argument can have the intro flag set only
when the original stored dialog had it set. -/
theorem ensure_ok_shape (st : EngineState) (bot : Bot)
    (cid aid : Nat) (adid : String) (env : CtxEnv) (now : Int)
    (st' : EngineState) (ctx : DialogCtx)
    (h : ensure_dialog_context st bot cid aid adid env now = Except.ok (st', ctx)) :
    ∃ stx d' created tc chat target,
      (st', ctx) = ensure_finish stx d' created tc bot chat target env.headerSendOk now ∧
      (d'.topic_intro_sent = true →
        ∃ d, get_by_avito st cid adid = some d ∧ d.topic_intro_sent = true) := by
  simp only [ensure_dialog_context] at h
  split at h
  · exact absurd h (by simp)
  · split at h
    · exact absurd h (by simp)
    · split at h
      · next hnone =>
        split at h
        · exact absurd h (by simp)
        · next topicId _ =>
          refine ⟨_, _, _, _, _, _, (Except.ok.injEq _ _ ▸ h).symm, ?_⟩
          intro hintro
          exact absurd hintro (by simp [create_dialog])
      · next d hd =>
        split at h
        · split at h
          · refine ⟨_, _, _, _, _, _, (Except.ok.injEq _ _ ▸ h).symm, ?_⟩
            intro hintro
            exact ⟨d, hd, hintro⟩
          · refine ⟨_, _, _, _, _, _, (Except.ok.injEq _ _ ▸ h).symm, ?_⟩
            intro hintro
            exact ⟨d, hd, hintro⟩
          · split at h
            · refine ⟨_, _, _, _, _, _, (Except.ok.injEq _ _ ▸ h).symm, ?_⟩
              intro hintro
              exact ⟨d, hd, hintro⟩
            · refine ⟨_, _, _, _, _, _, (Except.ok.injEq _ _ ▸ h).symm, ?_⟩
              intro hintro
              refine ⟨d, hd, ?_⟩
              simp only [set_topic, truthyStr] at hintro
              split at hintro
              · exact absurd hintro (by simp)
              · simpa using hintro
        · refine ⟨_, _, _, _, _, _, (Except.ok.injEq _ _ ▸ h).symm, ?_⟩
          intro hintro
          exact ⟨d, hd, hintro⟩

/-- Helper: on a qualifying existing dialog (topic mode, chat and topic bound)
`_ensure_dialog_context` runs straight to the header block. -/
theorem ensure_existing_qualifying (st : EngineState) (bot : Bot)
    (cid aid : Nat) (adid : String) (env : CtxEnv) (now : Int) (d : Dialog)
    (cs : String)
    (hd : get_by_avito st cid adid = some d)
    (htm : bot.topic_mode = true)
    (hchat : d.telegram_chat_id = some cs) (hcs : cs ≠ "")
    (htopic : truthyStr d.telegram_topic_id = true) :
    ensure_dialog_context st bot cid aid adid env now =
      Except.ok (ensure_finish st d false false bot d.telegram_chat_id cs
        env.headerSendOk now) := by
  have htr : truthyStr d.telegram_chat_id = true := by simp [truthyStr, hchat, hcs]
  have htscs : truthyStr (some cs) = true := by simp [truthyStr, hcs]
  simp [ensure_dialog_context, hd, htr, hchat, htscs, hcs, htm, htopic]

/-- C8: `topic_intro_sent` becomes true only when the header send succeeded;
a failed header send is not fatal — resolution still returns normally with
the flag left false — and the header is attempted again on the next
qualifying resolution of that dialog. -/
theorem C8_header_flag_semantics :
    (∀ (st : EngineState) (bot : Bot) (cid aid : Nat) (adid : String)
        (env : CtxEnv) (now : Int) (d : Dialog) (cs : String),
      get_by_avito st cid adid = some d →
      bot.topic_mode = true →
      d.telegram_chat_id = some cs → cs ≠ "" →
      truthyStr d.telegram_topic_id = true →
      d.topic_intro_sent = false →
      env.headerSendOk = false →
      ∃ st' ctx, ensure_dialog_context st bot cid aid adid env now =
          Except.ok (st', ctx) ∧
        ctx.headerAttempted = true ∧
        ctx.dialog.topic_intro_sent = false ∧
        ctx.dialog.telegram_topic_id = d.telegram_topic_id ∧
        ctx.dialog.telegram_chat_id = d.telegram_chat_id) ∧
    (∀ (st : EngineState) (bot : Bot) (cid aid : Nat) (adid : String)
        (env : CtxEnv) (now : Int) (st' : EngineState) (ctx : DialogCtx),
      ensure_dialog_context st bot cid aid adid env now = Except.ok (st', ctx) →
      ctx.dialog.topic_intro_sent = true →
      env.headerSendOk = true ∨
        ∃ d, get_by_avito st cid adid = some d ∧ d.topic_intro_sent = true) ∧
    (∀ (st : EngineState) (bot : Bot) (cid aid : Nat) (adid : String)
        (env : CtxEnv) (now : Int) (st' : EngineState) (ctx : DialogCtx),
      ensure_dialog_context st bot cid aid adid env now = Except.ok (st', ctx) →
      ctx.headerAttempted = true → env.headerSendOk = true →
      ctx.dialog.topic_intro_sent = true) ∧
    (∀ (st : EngineState) (bot : Bot) (cid aid : Nat) (adid : String)
        (env env2 : CtxEnv) (now now2 : Int) (d : Dialog) (cs : String),
      st.dialogs = [d] →
      d.client_id = cid → d.avito_dialog_id = adid → d.source = directionAvito →
      bot.topic_mode = true →
      d.telegram_chat_id = some cs → cs ≠ "" →
      truthyStr d.telegram_topic_id = true →
      d.topic_intro_sent = false →
      env.headerSendOk = false →
      ∃ st' ctx, ensure_dialog_context st bot cid aid adid env now =
          Except.ok (st', ctx) ∧
        ctx.headerAttempted = true ∧ ctx.dialog.topic_intro_sent = false ∧
        ∃ st'' ctx', ensure_dialog_context st' bot cid aid adid env2 now2 =
            Except.ok (st'', ctx') ∧
          ctx'.headerAttempted = true) := by
  have hq : ∀ (st : EngineState) (bot : Bot) (cid aid : Nat) (adid : String)
      (env : CtxEnv) (now : Int) (d : Dialog) (cs : String),
      get_by_avito st cid adid = some d →
      bot.topic_mode = true →
      d.telegram_chat_id = some cs → cs ≠ "" →
      truthyStr d.telegram_topic_id = true →
      d.topic_intro_sent = false →
      ensure_dialog_context st bot cid aid adid env now =
        Except.ok
          (putDialog st (touch (if env.headerSendOk then
              { d with topic_intro_sent := true } else d) now),
           { dialog := touch (if env.headerSendOk then
               { d with topic_intro_sent := true } else d) now,
             created := false, topicCreated := false, headerAttempted := true,
             target_chat_id := cs }) := by
    intro st bot cid aid adid env now d cs hd htm hchat hcs htopic hintro
    have key := ensure_existing_qualifying st bot cid aid adid env now d cs hd htm
      hchat hcs htopic
    rw [key]
    have htr : truthyStr d.telegram_chat_id = true := by simp [truthyStr, hchat, hcs]
    simp [ensure_finish, htm, htopic, hintro, htr]
  refine ⟨?_, ?_, ?_, ?_⟩
  · intro st bot cid aid adid env now d cs hd htm hchat hcs htopic hintro hhdr
    have key := hq st bot cid aid adid env now d cs hd htm hchat hcs htopic hintro
    rw [hhdr] at key
    refine ⟨_, _, key, rfl, ?_, ?_, ?_⟩ <;> simp [touch, hintro]
  · intro st bot cid aid adid env now st' ctx h hintro
    obtain ⟨stx, d', created, tc, chat, target, hshape, hbase⟩ :=
      ensure_ok_shape st bot cid aid adid env now st' ctx h
    have hctx : ctx = (ensure_finish stx d' created tc bot chat target
        env.headerSendOk now).2 := congrArg Prod.snd hshape
    rcases ensure_finish_intro_true stx d' created tc bot chat target
        env.headerSendOk now (hctx ▸ hintro) with hok | hpre
    · exact Or.inl hok
    · exact Or.inr (hbase hpre)
  · intro st bot cid aid adid env now st' ctx h hatt hok
    obtain ⟨stx, d', created, tc, chat, target, hshape, _⟩ :=
      ensure_ok_shape st bot cid aid adid env now st' ctx h
    have hctx : ctx = (ensure_finish stx d' created tc bot chat target
        env.headerSendOk now).2 := congrArg Prod.snd hshape
    rw [hctx]
    exact ensure_finish_attempted_ok stx d' created tc bot chat target
      env.headerSendOk now (hctx ▸ hatt) hok
  · intro st bot cid aid adid env env2 now now2 d cs hlist hcid hadid hsrc htm
      hchat hcs htopic hintro hhdr
    have hd : get_by_avito st cid adid = some d := by
      simp [get_by_avito, hlist, hcid, hadid, hsrc]
    have key := hq st bot cid aid adid env now d cs hd htm hchat hcs htopic hintro
    rw [hhdr] at key
    simp only [if_neg (Bool.false_ne_true)] at key
    have hd2 : get_by_avito (putDialog st (touch d now)) cid adid =
        some (touch d now) := by
      simp [get_by_avito, putDialog, hlist, touch, hcid, hadid, hsrc]
    have key2 := hq (putDialog st (touch d now)) bot cid aid adid env2 now2
      (touch d now) cs hd2 htm (by simpa [touch] using hchat) hcs
      (by simpa [touch] using htopic) (by simpa [touch] using hintro)
    refine ⟨_, _, key, rfl, by simp [touch, hintro], _, _, key2, rfl⟩

/-- A sample dialog whose header has not been posted yet. -/
def c8Dialog : Dialog :=
  { sampleDialog with topic_intro_sent := false }

/-- A sample store holding only `c8Dialog`. -/
def c8State : EngineState :=
  { dialogs := [c8Dialog], messages := [], nextDialogId := 2, nextMessageId := 1 }

/-- A sample resolution environment whose header send fails. -/
def c8EnvFail : CtxEnv :=
  { createTopic := CreateTopicOutcome.okNoId, headerSendOk := false }

/-- Projection: the `headerAttempted` observable of a successful resolution. -/
def ctxHeaderAttemptedOf (r : Except Unit (EngineState × DialogCtx)) : Option Bool :=
  match r with
  | .ok (_, ctx) => some ctx.headerAttempted
  | .error _ => none

/-- Projection: the resulting intro flag of a successful resolution. -/
def ctxIntroSentOf (r : Except Unit (EngineState × DialogCtx)) : Option Bool :=
  match r with
  | .ok (_, ctx) => some ctx.dialog.topic_intro_sent
  | .error _ => none

/-- Witness for C8: on the concrete store, a failed header send leaves the
flag false while resolution completes normally with the header attempted. -/
theorem C8_header_witness :
    ctxHeaderAttemptedOf (ensure_dialog_context c8State sampleBot 1 1 "d1"
      c8EnvFail 0) = some true ∧
    ctxIntroSentOf (ensure_dialog_context c8State sampleBot 1 1 "d1"
      c8EnvFail 0) = some false := by
  obtain ⟨st', ctx, key, h1, h2, _, _⟩ :=
    C8_header_flag_semantics.1 c8State sampleBot 1 1 "d1" c8EnvFail 0 c8Dialog
      "-100" (by decide) (by decide) (by decide) (by decide) (by decide)
      (by decide) (by decide)
  rw [key]
  exact ⟨by simp [ctxHeaderAttemptedOf, h1], by simp [ctxIntroSentOf, h2]⟩

/-! ## Claim C1 -/

/-- A previously ingested remote message with id `m1`. -/
def c1StoredMessage : Message :=
  { id := 1, dialog_id := 1, direction := directionAvito,
    source_message_id := some "m1", telegram_message_id := some "10",
    body := "hi", status := "delivered", is_auto_reply := false,
    is_client_message := true, created_at := 0 }

/-- A store already holding `c1StoredMessage`. -/
def c1State : EngineState :=
  { dialogs := [sampleDialog], messages := [c1StoredMessage],
    nextDialogId := 2, nextMessageId := 2 }

/-- A client whose keyword filter contains `spam`. -/
def c1Client : Client :=
  { sampleClientOff with filter_keywords := some "spam" }

/-- A re-delivery of remote message `m1` whose text matches the filter. -/
def c1Event : InboundEvent :=
  { client_id := 1, avito_account_id := 1, avito_dialog_id := "d1",
    message_text := some "spam offer", source_message_id := some "m1",
    attachments := [] }

/-- An ingestion environment (never reached by the counterexample). -/
def c1Env : HandleEnv :=
  { ctx := { createTopic := CreateTopicOutcome.okNoId, headerSendOk := true },
    sends := fun _ => DeliveryOutcome.delivered none }

/-- C1 counterexample: an event whose `source_message_id` duplicates an
existing Message but whose text matches the content filter returns
`ignored(filtered)`, not `ignored(duplicate)` — the filter rule runs before
the duplicate rule. -/
theorem C1_dup_counterexample :
    (get_by_source c1State.messages directionAvito "m1").isSome = true ∧
    c1Event.source_message_id = some "m1" ∧
    handle_avito_message c1State (some c1Client) sampleBot c1Event c1Env 0 =
      (c1State, HandleResult.ignoredFiltered, emptyTrace) ∧
    HandleResult.ignoredFiltered ≠ HandleResult.ignoredDuplicate := by
  refine ⟨by decide, by decide, by decide, by decide⟩

/-- C1 amended: when the event is not dropped by the earlier filtered/empty
rules and carries a truthy (non-null, non-empty) `source_message_id` for
which a `(direction=avito, source_message_id)` Message already exists, the
call returns `ignored(duplicate)` with no side effects: the stores are
unchanged, nothing is sent to the team chat, no Message row is created, and
no auto-reply is armed. -/
theorem C1_dup_ignored_after_earlier_rules (st : EngineState)
    (client : Option Client) (bot : Bot) (ev : InboundEvent) (env : HandleEnv)
    (now : Int) (sid : String)
    (hsid : ev.source_message_id = some sid) (hne : sid ≠ "")
    (hdup : (get_by_source st.messages directionAvito sid).isSome = true)
    (hfilter : should_ignore_message client (ev.message_text.getD "") = false)
    (hnonempty : ¬(ev.message_text.getD "" = "" ∧ ev.attachments = [])) :
    handle_avito_message st client bot ev env now =
      (st, HandleResult.ignoredDuplicate, emptyTrace) := by
  by_cases hT : ev.message_text.getD "" = ""
  · have hA : ev.attachments ≠ [] := fun h => hnonempty ⟨hT, h⟩
    simp [handle_avito_message, hT, hA, hsid, hne, hdup, truthyStr,
      List.isEmpty_iff]
  · simp [handle_avito_message, hT, hfilter, hsid, hne, hdup, truthyStr]

/-- A re-delivery of `m1` whose text does not match the filter. -/
def c1EventClean : InboundEvent :=
  { c1Event with message_text := some "hello there" }

/-- Witness for C1 at the concrete store and event. -/
theorem C1_dup_witness :
    (get_by_source c1State.messages directionAvito "m1").isSome = true ∧
    handle_avito_message c1State (some c1Client) sampleBot c1EventClean c1Env 0 =
      (c1State, HandleResult.ignoredDuplicate, emptyTrace) :=
  ⟨by decide, C1_dup_ignored_after_earlier_rules c1State (some c1Client) sampleBot
    c1EventClean c1Env 0 "m1" rfl (by decide) (by decide) (by decide)
    (by decide)⟩

/-! ## Claim C10 -/

/-- Helper: the persisted row of `finish_ingest` carries the fallback dedup
key — the head of the collected telegram ids — when the event has no
`source_message_id`, and the trace reports exactly those ids. -/
theorem finish_ingest_key (st : EngineState) (client : Option Client)
    (ctx : DialogCtx) (ev : InboundEvent) (text : String) (ids : List String)
    (records : List AttachRecord) (n : Nat) (now : Int)
    (hnone : ev.source_message_id = none) :
    ∃ m, (finish_ingest st client ctx ev text ids records n now).2.2.createdMessage
        = some m ∧
      m.source_message_id = ids.head? ∧
      (finish_ingest st client ctx ev text ids records n now).2.2.deliveredIds = ids := by
  simp only [finish_ingest, message_create, hnone]
  rw [if_neg (by simp [truthyStr])]
  split
  · exact ⟨_, rfl, rfl, trivial⟩
  · exact ⟨_, rfl, rfl, trivial⟩

/-- Helper: every run of `handle_avito_message` either ends in
`finish_ingest` (the only place a Message row is persisted) or persists
nothing and does not report success. -/
theorem handle_result_cases (st : EngineState) (client : Option Client)
    (bot : Bot) (ev : InboundEvent) (env : HandleEnv) (now : Int) :
    (∃ st1 ctx ids records n,
      handle_avito_message st client bot ev env now =
        finish_ingest st1 client ctx ev (ev.message_text.getD "") ids records n now) ∨
    ((handle_avito_message st client bot ev env now).2.2.createdMessage = none ∧
      ∀ did created, (handle_avito_message st client bot ev env now).2.1 ≠
        HandleResult.ok did created) := by
  simp only [handle_avito_message]
  split
  · exact Or.inr ⟨rfl, by simp [emptyTrace]⟩
  split
  · exact Or.inr ⟨rfl, by simp [emptyTrace]⟩
  split
  · exact Or.inr ⟨rfl, by simp [emptyTrace]⟩
  split
  · exact Or.inr ⟨rfl, by simp [emptyTrace]⟩
  split
  · exact Or.inr ⟨rfl, by simp⟩
  split
  · split
    · exact Or.inr ⟨rfl, by simp⟩
    · exact Or.inl ⟨_, _, _, _, _, rfl⟩
  · exact Or.inl ⟨_, _, _, _, _, rfl⟩

/-- C10: an ingest call whose event carries no `source_message_id` and which
succeeds persists its Message with `source_message_id` equal to the first
collected team-chat message id of this ingestion, or null when no delivery
produced one — deduplication then runs under a team-chat-assigned key. -/
theorem C10_fallback_dedup_key (st : EngineState) (client : Option Client)
    (bot : Bot) (ev : InboundEvent) (env : HandleEnv) (now : Int)
    (hnone : ev.source_message_id = none) (did : Nat) (created : Bool)
    (hok : (handle_avito_message st client bot ev env now).2.1 =
      HandleResult.ok did created) :
    ∃ m : Message,
      (handle_avito_message st client bot ev env now).2.2.createdMessage = some m ∧
      m.source_message_id =
        (handle_avito_message st client bot ev env now).2.2.deliveredIds.head? ∧
      ((handle_avito_message st client bot ev env now).2.2.deliveredIds = [] →
        m.source_message_id = none) := by
  rcases handle_result_cases st client bot ev env now with
    ⟨st1, ctx, ids, records, n, heq⟩ | ⟨-, hnever⟩
  · rw [heq]
    obtain ⟨m, hm, hsrc, hids⟩ :=
      finish_ingest_key st1 client ctx ev (ev.message_text.getD "") ids records
        n now hnone
    refine ⟨m, hm, by rw [hsrc, hids], fun h => ?_⟩
    have hids0 : ids = [] := hids.symm.trans h
    rw [hsrc, hids0]
    rfl
  · exact absurd hok (hnever did created)

/-- A store for the C10 witness: one bound dialog whose header is posted. -/
def c10State : EngineState :=
  { dialogs := [sampleDialog], messages := [], nextDialogId := 2,
    nextMessageId := 5 }

/-- An inbound event with text but no remote message id. -/
def c10Event : InboundEvent :=
  { client_id := 1, avito_account_id := 1, avito_dialog_id := "d1",
    message_text := some "hello", source_message_id := none, attachments := [] }

/-- An environment whose single delivery returns telegram message id 42. -/
def c10Env : HandleEnv :=
  { ctx := { createTopic := CreateTopicOutcome.okNoId, headerSendOk := true },
    sends := fun _ => DeliveryOutcome.delivered (some "42") }

/-- Witness for C10: the concrete successful ingestion persists the row under
the delivered telegram id. -/
theorem C10_fallback_witness :
    (handle_avito_message c10State none sampleBot c10Event c10Env 0).2.1 =
      HandleResult.ok 1 false ∧
    ((handle_avito_message c10State none sampleBot c10Event c10Env 0).2.2.createdMessage).map
        Message.source_message_id =
      some ((handle_avito_message c10State none sampleBot c10Event
        c10Env 0).2.2.deliveredIds.head?) := by
  refine ⟨by decide, ?_⟩
  obtain ⟨m, hm, hsrc, -⟩ := C10_fallback_dedup_key c10State none sampleBot
    c10Event c10Env 0 rfl 1 false (by decide)
  rw [hm, Option.map_some', hsrc]

/-! ## Claim C2 -/

/-- Helper: a fire either sends nothing, or sends and commits
`mark_auto_reply_sent` over the resolved dialog. -/
theorem fire_shape (st : EngineState) (client : Option Client) (bot : Bot)
    (id : Nat) (schedAt now : Int) (env : FireEnv) :
    (∃ stx, execute_scheduled_auto_reply st client bot id schedAt now env =
      (stx, false, none)) ∨
    (∃ stx dx, execute_scheduled_auto_reply st client bot id schedAt now env =
      (stx, true, some (mark_auto_reply_sent (touch dx now) now))) := by
  simp only [execute_scheduled_auto_reply]
  repeat' first
    | exact Or.inl ⟨_, rfl⟩
    | exact Or.inr ⟨_, _, rfl⟩
    | split

/-- C2: a scheduled fire is a no-op when the stored
`auto_reply_scheduled_at` no longer equals the `scheduledAt` it was armed
with; it clears the schedule and sends nothing when a non-auto-reply
team-chat-direction Message for the dialog was created at or after
`scheduledAt`; a successful fire records `auto_reply_last_sent_at` and clears
the schedule, after which a further fire never sends and evaluation arms no
new schedule while the window start stays at or before the recorded send —
so at most one auto-reply is sent per dialog per eligibility window. -/
theorem C2_fire_staleness_preemption :
    (∀ (st : EngineState) (client : Option Client) (bot : Bot) (id : Nat)
        (schedAt now : Int) (env : FireEnv) (d : Dialog),
      findDialogById st id = some d →
      d.auto_reply_scheduled_at ≠ some schedAt →
      execute_scheduled_auto_reply st client bot id schedAt now env =
        (st, false, none)) ∧
    (∀ (st : EngineState) (client : Option Client) (bot : Bot) (id : Nat)
        (schedAt now : Int) (env : FireEnv) (d : Dialog),
      findDialogById st id = some d →
      d.auto_reply_scheduled_at = some schedAt →
      has_outgoing_since st.messages d.id schedAt = true →
      execute_scheduled_auto_reply st client bot id schedAt now env =
        (putDialog st (clear_auto_reply_schedule d), false, none)) ∧
    (∀ (st : EngineState) (client : Option Client) (bot : Bot) (id : Nat)
        (schedAt now : Int) (env : FireEnv) (st' : EngineState) (snt : Bool)
        (od : Option Dialog),
      execute_scheduled_auto_reply st client bot id schedAt now env =
        (st', snt, od) →
      snt = true →
      ∃ d', od = some d' ∧ d'.auto_reply_last_sent_at = some now ∧
        d'.auto_reply_scheduled_at = none) ∧
    (∀ (c : Client) (d : Dialog) (now_utc l w : Int),
      d.auto_reply_last_sent_at = some l →
      calculate_window_start (now_utc + c.tzOffsetMinutes) c.auto_reply_always
        c.auto_reply_start_time c.auto_reply_end_time = some w →
      w ≤ l + c.tzOffsetMinutes →
      maybe_send_auto_reply (some c) d now_utc = none) := by
  refine ⟨?_, ?_, ?_, maybe_send_no_rearm⟩
  · intro st client bot id schedAt now env d hd hne
    simp only [execute_scheduled_auto_reply, hd]
    cases hsched : d.auto_reply_scheduled_at with
    | none => rfl
    | some stored =>
      have hne' : stored ≠ schedAt := fun h => hne (by rw [hsched, h])
      simp [hne']
  · intro st client bot id schedAt now env d hd hsched hout
    simp only [execute_scheduled_auto_reply, hd, hsched]
    rw [if_neg (by simp)]
    cases client with
    | none => rfl
    | some c => simp [hout]
  · intro st client bot id schedAt now env st' snt od heq hsnt
    rcases fire_shape st client bot id schedAt now env with ⟨stx, hf⟩ | ⟨stx, dx, hf⟩
    · rw [heq] at hf
      simp only [Prod.mk.injEq] at hf
      exact absurd (hf.2.1.symm.trans hsnt) (by simp)
    · rw [heq] at hf
      simp only [Prod.mk.injEq] at hf
      exact ⟨_, hf.2.2, by simp [mark_auto_reply_sent], by
        simp [mark_auto_reply_sent]⟩

/-- A dialog currently armed for `scheduled_at = 50`. -/
def c2Dialog : Dialog :=
  { sampleDialog with auto_reply_scheduled_at := some 50 }

/-- A store holding `c2Dialog` for the C2 witness. -/
def c2State : EngineState :=
  { dialogs := [c2Dialog], messages := [], nextDialogId := 2, nextMessageId := 1 }

/-- A fire environment (never reached by the stale witness). -/
def c2FireEnv : FireEnv :=
  { ctx := { createTopic := CreateTopicOutcome.okNoId, headerSendOk := true },
    send := DeliveryOutcome.delivered (some "9") }

/-- Witness for C2: a fire armed for 100 against a dialog whose stored
schedule is 50 is a no-op. -/
theorem C2_fire_witness :
    findDialogById c2State 1 = some c2Dialog ∧
    c2Dialog.auto_reply_scheduled_at ≠ some 100 ∧
    execute_scheduled_auto_reply c2State (some sampleClientOn) sampleBot 1 100
      200 c2FireEnv = (c2State, false, none) :=
  ⟨by decide, by decide,
    C2_fire_staleness_preemption.1 c2State (some sampleClientOn) sampleBot 1 100
      200 c2FireEnv c2Dialog (by decide) (by decide)⟩

end Tuberry
